import Mathlib

/-!
Shallow embedding of the mini-cloud dashboard server (src/server.js):
the log hub (WebSocket pub/sub with replay buffers), the hostname-based
routing resolver, the metrics aggregation endpoint and the simulated
build-log timeline, together with theorems settling the specification
claims about them.
-/

/-! ## Log Hub (server.js lines 28-140)

`logSubscribers` is the `Map` appId -> array of WebSocket connections,
`buildLogs` the `Map` buildId -> array of log lines.  Connections are
identified by `Nat` ids; each connection has a `readyState` and an
`inbox` recording, in order, every message the server has sent on it. -/

/-- Message shapes sent on a log WebSocket: the replay message
`{type:'logs', data: <array>}` and the live broadcast
`{type:'logs', data: <line>, timestamp}`. -/
inductive WsMsg where
  | logs (data : List String)
  | logLine (data : String) (timestamp : Nat)
deriving DecidableEq

/-- `WebSocket.OPEN` ready-state constant. -/
def WS_OPEN : Nat := 1

/-- State of the log hub: the two maps of server.js lines 29-30 plus,
for each connection id, its ready state and the ordered list of messages
sent to it.  A subject absent from `logSubscribers` is modelled as `[]`
(the code reads it with `logSubscribers.get(appId) || []` or guards with
`has`/truthiness); `buildLogs` keeps the `has` distinction via `Option`. -/
structure HubState where
  logSubscribers : String → List Nat
  buildLogs : String → Option (List String)
  inbox : Nat → List WsMsg
  readyState : Nat → Nat

/-- `broadcastLogs(appId, logData)` (server.js lines 127-140): for each
occurrence of a connection in the subscriber list of `appId` whose
`readyState` is `OPEN`, send `{type:'logs', data: logData, timestamp}`;
other connections receive nothing and no map is modified.  The `forEach`
over the array is rendered per-connection: an open connection receives
one copy of the message per occurrence in the list. -/
def broadcastLogs (st : HubState) (appId : String) (logData : String) (now : Nat) :
    HubState :=
  let subscribers := st.logSubscribers appId
  let msg := WsMsg.logLine logData now
  { st with inbox := fun c =>
      if st.readyState c = WS_OPEN then st.inbox c ++ List.replicate (subscribers.count c) msg
      else st.inbox c }

/-- The spec's `publish(subject, line)`: the body of the interval in
`simulateBuildLogs` (server.js lines 302-304):
`buildLogs.set(appId, [...(buildLogs.get(appId) || []), log])` followed by
`broadcastLogs(appId, log)`. -/
def publish (st : HubState) (subject line : String) (now : Nat) : HubState :=
  let newBuffer := (st.buildLogs subject).getD [] ++ [line]
  let appended := { st with buildLogs := Function.update st.buildLogs subject (some newBuffer) }
  broadcastLogs appended subject line now

/-- The `wss.on('connection')` handler (server.js lines 94-124):
if the `appId` query parameter is truthy (present and non-empty), push the
connection onto `logSubscribers[appId]` (creating the entry if absent) and,
when `buildLogs.has(buildId)`, send the buffered lines once as
`{type:'logs', data}`.  Otherwise do nothing. -/
def wsConnect (st : HubState) (c : Nat) (appId? buildId? : Option String) :
    HubState :=
  match appId? with
  | none => st
  | some appId =>
    if appId = "" then st
    else
      let newSubs := Function.update st.logSubscribers appId (st.logSubscribers appId ++ [c])
      let st1 := { st with logSubscribers := newSubs }
      let replay? := match buildId? with
        | some buildId => st1.buildLogs buildId
        | none => none
      match replay? with
      | some data =>
        { st1 with inbox := Function.update st1.inbox c (st1.inbox c ++ [WsMsg.logs data]) }
      | none => st1

/-- The `ws.on('close')` handler (server.js lines 114-118):
`subscribers.indexOf(ws)` followed by `splice(index, 1)` when found, i.e.
removal of the first occurrence (`List.erase`). -/
def wsClose (st : HubState) (appId : String) (c : Nat) : HubState :=
  { st with logSubscribers :=
      Function.update st.logSubscribers appId ((st.logSubscribers appId).erase c) }

/-! ## Routing Resolver (server.js lines 54-85) -/

/-- `hostname.split('.')[0]`: the characters of the hostname before the
first dot (the whole hostname when it has no dot). -/
def subdomainOf (hostname : String) : String :=
  ⟨hostname.data.takeWhile (fun ch => ch ≠ '.')⟩

/-- The guard of server.js line 60:
`subdomain && subdomain !== 'www' && subdomain !== 'dashboard' && subdomain !== 'platform'`. -/
def isRoutable (subdomain : String) : Bool :=
  subdomain ≠ "" && subdomain ≠ "www" && subdomain ≠ "dashboard" && subdomain ≠ "platform"

/-- Index of the first occurrence of `sep` as a contiguous sublist of the
second argument (`none` when it does not occur). -/
def firstSepIdx (sep : List Char) : List Char → Option Nat
  | [] => if sep = [] then some 0 else none
  | c :: rest =>
    if sep.isPrefixOf (c :: rest) then some 0
    else (firstSepIdx sep rest).map (· + 1)

/-- The separator of `app.url.split('://')`. -/
def SCHEME_SEP : List Char := "://".data

/-- `app.url.split('://')[1]?.split('.')[0]` (server.js line 67): the
segment of the url between the first `://` and the following `://` (or the
end), truncated at its first dot; `none` when the url has no `://`
(JavaScript: index 1 of a one-element split is `undefined`). -/
def appSubdomain (url : String) : Option String :=
  match firstSepIdx SCHEME_SEP url.data with
  | none => none
  | some i =>
    let rest := url.data.drop (i + SCHEME_SEP.length)
    let seg := match firstSepIdx SCHEME_SEP rest with
               | none => rest
               | some j => rest.take j
    some ⟨seg.takeWhile (fun ch => ch ≠ '.')⟩

/-- An application record as returned by `GET /api/apps` and used by the
routing middleware: `url`, `status`, `container_id`, `port`. -/
structure AppRec where
  url : String
  status : String
  container_id : String
  port : Nat
deriving DecidableEq

/-- Outcome of the `/apps/*` middleware: proxy to
`http://<container_id>:<port>`, or `next()`. -/
inductive RouteDecision where
  | proxy (target : String) (port : Nat)
  | fallthrough
deriving DecidableEq

/-- Whether the middleware reaches the `fetch(PLATFORM_API_URL + '/api/apps')`
call: exactly when the subdomain guard of line 60 passes. -/
def issuesLookup (hostname : String) : Bool :=
  isRoutable (subdomainOf hostname)

/-- The `/apps/*` middleware (server.js lines 54-85).  `appsR` is the
outcome of the registry fetch (`.error` for a rejected fetch, which the
`catch` turns into fall-through).  Inside the guard the code takes
`apps.find(...)` — the first record whose url subdomain equals the request
subdomain — and proxies only when that record's `status === 'running'`. -/
def routeRequest (appsR : Except Unit (List AppRec)) (hostname : String) :
    RouteDecision :=
  if isRoutable (subdomainOf hostname) then
    match appsR with
    | .error _ => .fallthrough
    | .ok apps =>
      match apps.find? (fun a => appSubdomain a.url = some (subdomainOf hostname)) with
      | some targetApp =>
        if targetApp.status = "running" then .proxy targetApp.container_id targetApp.port
        else .fallthrough
      | none => .fallthrough
  else .fallthrough

/-! ## Metrics Aggregator (server.js lines 147-193 and 353-373) -/

/-- A container summary as returned by `docker.listContainers({all: true})`.
`MemoryUsage` models the possibly-absent `c.MemoryUsage` (read as
`c.MemoryUsage || 0`); `NetworkRx`/`NetworkTx` model
`c.NetworkSettings?.NetworkRx || 0` and `c.NetworkSettings?.NetworkTx || 0`. -/
structure ContainerInfo where
  Names : List String
  MemoryUsage : Option Nat
  NetworkRx : Option Nat
  NetworkTx : Option Nat
deriving DecidableEq

/-- `s.includes(pat)`: substring containment. -/
def strIncludes (s pat : String) : Bool :=
  (firstSepIdx pat.data s.data).isSome

/-- The predicate of server.js line 158:
`c.Names.some(name => name.includes('mini-cloud'))`. -/
def isPlatformContainer (c : ContainerInfo) : Bool :=
  c.Names.any (fun name => strIncludes name "mini-cloud")

/-- `platformContainers` (server.js lines 157-159). -/
def platformContainers (containers : List ContainerInfo) : List ContainerInfo :=
  containers.filter isPlatformContainer

/-- `usedMemory` (server.js line 162):
`platformContainers.reduce((sum, c) => sum + (c.MemoryUsage || 0), 0)`. -/
def usedMemory (containers : List ContainerInfo) : Nat :=
  (platformContainers containers).foldl (fun sum c => sum + c.MemoryUsage.getD 0) 0

/-- `network.totalRx` (server.js line 185). -/
def totalRx (containers : List ContainerInfo) : Nat :=
  (platformContainers containers).foldl (fun sum c => sum + c.NetworkRx.getD 0) 0

/-- `network.totalTx` (server.js line 186). -/
def totalTx (containers : List ContainerInfo) : Nat :=
  (platformContainers containers).foldl (fun sum c => sum + c.NetworkTx.getD 0) 0

/-- `memory.percent` (server.js line 176):
`totalMemory > 0 ? Math.round((usedMemory / totalMemory) * 100) : 0`,
with the arithmetic exact over `ℚ` (the operands are integers). -/
def memPercent (used total : Nat) : Int :=
  if 0 < total then round ((used : ℚ) / (total : ℚ) * 100) else 0

/-- Fields of `docker.info()` used by the metrics endpoint. -/
structure DockerInfo where
  ServerVersion : String
  Containers : Nat
  ContainersRunning : Nat
  ContainersStopped : Nat
  MemTotal : Nat
  NCPU : Nat
deriving DecidableEq

/-- Result shape of `getSystemStats` (server.js lines 353-373), already
parsed: rounded cpu load, parsed disk usage percent, raw disk string. -/
structure SysStats where
  cpuLoad : Int
  diskUsage : Nat
  diskHuman : String
deriving DecidableEq

/-- The value returned by the `catch` branch of `getSystemStats`:
`{ cpuLoad: 0, disk: { usage: 0, human: 'N/A' } }`. -/
def defaultSysStats : SysStats := ⟨0, 0, "N/A"⟩

/-- `getSystemStats` (server.js lines 353-373): the OS commands either
succeed, yielding parsed stats, or throw, in which case the function's own
`catch` substitutes the zero defaults — it never rejects. -/
def getSystemStats (osR : Except Unit SysStats) : SysStats :=
  match osR with
  | .ok s => s
  | .error _ => defaultSysStats

/-- The JSON body assembled by `GET /api/system/metrics`
(server.js lines 165-188). -/
structure Snapshot where
  dockerVersion : String
  dockerContainers : Nat
  dockerRunning : Nat
  dockerStopped : Nat
  memTotal : Nat
  memUsed : Nat
  memPercent : Int
  cpuCores : Nat
  cpuLoad : Int
  diskUsage : Nat
  diskHuman : String
  networkTotalRx : Nat
  networkTotalTx : Nat
deriving DecidableEq

/-- The `GET /api/system/metrics` handler (server.js lines 147-193).
`Promise.all` rejects as soon as `docker.info()` or
`docker.listContainers` rejects, and the surrounding `try/catch` then
answers `500 {error: 'Failed to get system metrics'}` (modelled `.error ()`);
`getSystemStats` never rejects, its failure is absorbed internally. -/
def metricsHandler (infoR : Except Unit DockerInfo)
    (containersR : Except Unit (List ContainerInfo))
    (osR : Except Unit SysStats) : Except Unit Snapshot :=
  match infoR, containersR with
  | .ok dockerInfo, .ok containers =>
    let systemStats := getSystemStats osR
    .ok
      { dockerVersion := dockerInfo.ServerVersion
        dockerContainers := dockerInfo.Containers
        dockerRunning := dockerInfo.ContainersRunning
        dockerStopped := dockerInfo.ContainersStopped
        memTotal := dockerInfo.MemTotal
        memUsed := usedMemory containers
        memPercent := memPercent (usedMemory containers) dockerInfo.MemTotal
        cpuCores := dockerInfo.NCPU
        cpuLoad := systemStats.cpuLoad
        diskUsage := systemStats.diskUsage
        diskHuman := systemStats.diskHuman
        networkTotalRx := totalRx containers
        networkTotalTx := totalTx containers }
  | _, _ => .error ()

/-! ## Deployment Tracker (server.js lines 248-312) -/

/-- The five synthetic progress lines of `simulateBuildLogs`
(server.js lines 291-297). -/
def buildMessages (templateName : String) : List String :=
  ["📦 Cloning " ++ templateName ++ " template...",
   "🔧 Installing dependencies...",
   "🐳 Building Docker image...",
   "🚀 Starting container...",
   "✅ Deployment complete!"]

/-- The `setInterval` period of `simulateBuildLogs` (2000 ms). -/
def LOG_INTERVAL_MS : Nat := 2000

/-- The retention delay of the purge `setTimeout` (3600000 ms = 1 hour). -/
def LOG_RETENTION_MS : Nat := 3600000

/-- Timeline of `simulateBuildLogs` for a session started at time `T`
(milliseconds): the k-th tick of the interval fires at
`T + 2000 * (k + 1)` and, while `index < messages.length`, publishes
message `index` (append to `buildLogs` plus `broadcastLogs`). -/
def buildPublishEvents (T : Nat) (templateName : String) : List (Nat × String) :=
  (buildMessages templateName).enum.map
    (fun p => (T + LOG_INTERVAL_MS * (p.1 + 1), p.2))

/-- Time at which `buildLogs.delete(appId)` fires: the tick after the last
message (`index === messages.length`) clears the interval and schedules the
deletion `3600000` ms later. -/
def purgeTime (T : Nat) (templateName : String) : Nat :=
  T + LOG_INTERVAL_MS * ((buildMessages templateName).length + 1) + LOG_RETENTION_MS

/-- Spec-side state machine of a BuildSession
(`Pending → Cloning → InstallingDeps → BuildingImage → StartingContainer → Complete`). -/
inductive BuildState where
  | Pending
  | Cloning
  | InstallingDeps
  | BuildingImage
  | StartingContainer
  | Complete
deriving DecidableEq

/-- The ordered state sequence of a BuildSession; transition k enters
`sessionStates[k+1]` and publishes `buildMessages[k]`. -/
def sessionStates : List BuildState :=
  [.Pending, .Cloning, .InstallingDeps, .BuildingImage, .StartingContainer, .Complete]

/-! ## Theorems -/

/-- C1: `publish(S, L)` appends `L` to subject `S`'s log buffer and to no
other subject's buffer; it delivers the line exactly to the connections
subscribed to `S` at call time whose socket is open (one copy per
occurrence in the subscriber list), while every connection not subscribed
to `S` — in particular any subscriber of another subject — and every
non-open connection receives nothing; the skip is silent: `publish` is a
total function and leaves the subscriber registry untouched. -/
theorem C1_publish_delivery (st : HubState) (S L : String) (now : Nat) :
    (publish st S L now).buildLogs S = some ((st.buildLogs S).getD [] ++ [L])
    ∧ (∀ T, T ≠ S → (publish st S L now).buildLogs T = st.buildLogs T)
    ∧ (∀ c, c ∈ st.logSubscribers S → st.readyState c = WS_OPEN →
        (publish st S L now).inbox c =
          st.inbox c ++ List.replicate ((st.logSubscribers S).count c) (WsMsg.logLine L now))
    ∧ (∀ c, c ∉ st.logSubscribers S → (publish st S L now).inbox c = st.inbox c)
    ∧ (∀ c, st.readyState c ≠ WS_OPEN → (publish st S L now).inbox c = st.inbox c)
    ∧ (publish st S L now).logSubscribers = st.logSubscribers := by
  refine ⟨?_, ?_, ?_, ?_, ?_, rfl⟩
  · simp [publish, broadcastLogs]
  · intro T hT
    simp [publish, broadcastLogs, Function.update_noteq hT]
  · intro c _ hopen
    simp [publish, broadcastLogs, hopen]
  · intro c hc
    have hcount : (st.logSubscribers S).count c = 0 := List.count_eq_zero.mpr hc
    by_cases hopen : st.readyState c = WS_OPEN
    · simp [publish, broadcastLogs, hopen, hcount]
    · simp [publish, broadcastLogs, hopen]
  · intro c hopen
    simp [publish, broadcastLogs, hopen]

/-- Concrete hub state for the C1 witness: connections 1 and 2 subscribed
to "app-1" (1 open, 2 closing), connection 3 subscribed to another subject. -/
def hubC1 : HubState where
  logSubscribers := fun s => if s = "app-1" then [1, 2] else [3]
  buildLogs := fun _ => none
  inbox := fun _ => []
  readyState := fun c => if c = 1 then WS_OPEN else 3

theorem C1_publish_delivery_witness :
    1 ∈ hubC1.logSubscribers "app-1" ∧ hubC1.readyState 1 = WS_OPEN ∧
    (publish hubC1 "app-1" "line" 0).inbox 1 =
      hubC1.inbox 1 ++ List.replicate ((hubC1.logSubscribers "app-1").count 1)
        (WsMsg.logLine "line" 0) :=
  ⟨by decide, by decide,
    (C1_publish_delivery hubC1 "app-1" "line" 0).2.2.1 1 (by decide) (by decide)⟩

/-- C7: once a connection has been unsubscribed from subject `S`
(`ws.on('close')` removal), a subsequent `publish(S, ...)` delivers
nothing to it, and a second unsubscribe for the same connection leaves the
whole hub state — in particular the subscriber registry — exactly as the
first left it.  The hypothesis that `c` occurs at most once in `S`'s
subscriber list is the registry shape the connection handler maintains
(each socket is pushed once, on its single connection event). -/
theorem C7_unsubscribe_idempotent (st : HubState) (S : String) (c : Nat)
    (h : (st.logSubscribers S).count c ≤ 1) (L : String) (now : Nat) :
    (publish (wsClose st S c) S L now).inbox c = (wsClose st S c).inbox c
    ∧ wsClose (wsClose st S c) S c = wsClose st S c := by
  have hcount : ((st.logSubscribers S).erase c).count c = 0 := by
    rw [List.count_erase_self]
    omega
  have hnotmem : c ∉ (st.logSubscribers S).erase c := List.count_eq_zero.mp hcount
  constructor
  · by_cases hopen : st.readyState c = WS_OPEN
    · simp [publish, broadcastLogs, wsClose, hopen, hcount]
    · simp [publish, broadcastLogs, wsClose, hopen]
  · have herase : ((st.logSubscribers S).erase c).erase c = (st.logSubscribers S).erase c :=
      List.erase_of_not_mem hnotmem
    simp [wsClose, Function.update_idem, herase]

/-- Concrete hub state for the C7 witness: connection 1 subscribed once
to "app-1". -/
def hubC7 : HubState where
  logSubscribers := fun s => if s = "app-1" then [1] else []
  buildLogs := fun _ => none
  inbox := fun _ => []
  readyState := fun _ => WS_OPEN

theorem C7_unsubscribe_idempotent_witness :
    (hubC7.logSubscribers "app-1").count 1 ≤ 1
    ∧ (publish (wsClose hubC7 "app-1" 1) "app-1" "line" 0).inbox 1 =
        (wsClose hubC7 "app-1" 1).inbox 1
    ∧ wsClose (wsClose hubC7 "app-1" 1) "app-1" 1 = wsClose hubC7 "app-1" 1 :=
  ⟨by decide,
    (C7_unsubscribe_idempotent hubC7 "app-1" 1 (by decide) "line" 0).1,
    (C7_unsubscribe_idempotent hubC7 "app-1" 1 (by decide) "line" 0).2⟩

/-- C10: a WebSocket upgrade on `/ws/logs` whose query has no `appId`
parameter leaves the hub state completely unchanged — no subscriber is
registered, no replay is sent (whatever buffer the `buildId` parameter may
name), the subscriber registry and every log buffer are untouched. -/
theorem C10_no_appId_no_effect (st : HubState) (c : Nat) (buildId? : Option String) :
    wsConnect st c none buildId? = st
    ∧ (wsConnect st c none buildId?).logSubscribers = st.logSubscribers
    ∧ (wsConnect st c none buildId?).buildLogs = st.buildLogs
    ∧ (wsConnect st c none buildId?).inbox = st.inbox :=
  ⟨rfl, rfl, rfl, rfl⟩

/-- C2: for every request whose hostname's leftmost label is `www`,
`dashboard` or `platform`, or is empty, the routing middleware performs no
registry fetch and the request falls through to the next handler,
whatever the (never consulted) registry would have answered. -/
theorem C2_reserved_label_fallthrough (appsR : Except Unit (List AppRec))
    (hostname : String)
    (h : subdomainOf hostname = "www" ∨ subdomainOf hostname = "dashboard" ∨
         subdomainOf hostname = "platform" ∨ subdomainOf hostname = "") :
    issuesLookup hostname = false
    ∧ routeRequest appsR hostname = RouteDecision.fallthrough := by
  have hr : isRoutable (subdomainOf hostname) = false := by
    rcases h with h | h | h | h <;> rw [h] <;> decide
  exact ⟨by simp [issuesLookup, hr], by simp [routeRequest, hr]⟩

theorem C2_reserved_label_fallthrough_witness :
    issuesLookup "www.example.com" = false
    ∧ routeRequest (.ok []) "www.example.com" = RouteDecision.fallthrough :=
  C2_reserved_label_fallthrough (.ok []) "www.example.com" (Or.inl (by decide))

/-- Registry for the C3 counterexample: two records share the subdomain
`foo`; the first is stopped, the second running. -/
def appsC3 : List AppRec :=
  [{ url := "http://foo.example.com", status := "stopped",
     container_id := "c-stopped", port := 3001 },
   { url := "http://foo.example.com", status := "running",
     container_id := "c-running", port := 3002 }]

/-- C3 counterexample: a Running record with hostname label `foo` exists
(the second one), the label is not reserved, yet the request for
`foo.example.com` falls through instead of resolving to that record's
backend — `apps.find(...)` returns the first record matching the
subdomain regardless of status, and its non-`running` status vetoes the
proxy without ever considering later records. -/
theorem C3_counterexample :
    subdomainOf "foo.example.com" = "foo"
    ∧ isRoutable "foo" = true
    ∧ (∃ a ∈ appsC3, a.status = "running" ∧ appSubdomain a.url = some "foo")
    ∧ routeRequest (.ok appsC3) "foo.example.com" = RouteDecision.fallthrough := by
  refine ⟨by decide, by decide, ?_, by decide⟩
  exact ⟨{ url := "http://foo.example.com", status := "running",
           container_id := "c-running", port := 3002 }, by decide, by decide, by decide⟩

/-- C3 as amended: with a non-reserved leftmost label `L`, resolution
scans the records in order for the *first* whose hostname label equals
`L`, regardless of status; it yields that record's backend exactly when
that first match has status Running, and falls through otherwise — even
when a later record with label `L` is Running — and falls through when no
record matches.  A record whose status is not Running is never selected. -/
theorem C3_first_match_resolution (apps : List AppRec) (hostname : String)
    (hr : isRoutable (subdomainOf hostname) = true) :
    (∀ a, apps.find? (fun x => appSubdomain x.url = some (subdomainOf hostname)) = some a →
        a.status = "running" →
        routeRequest (.ok apps) hostname = RouteDecision.proxy a.container_id a.port)
    ∧ (∀ a, apps.find? (fun x => appSubdomain x.url = some (subdomainOf hostname)) = some a →
        a.status ≠ "running" →
        routeRequest (.ok apps) hostname = RouteDecision.fallthrough)
    ∧ (apps.find? (fun x => appSubdomain x.url = some (subdomainOf hostname)) = none →
        routeRequest (.ok apps) hostname = RouteDecision.fallthrough)
    ∧ (∀ t p, routeRequest (.ok apps) hostname = RouteDecision.proxy t p →
        ∃ a ∈ apps, a.status = "running" ∧ appSubdomain a.url = some (subdomainOf hostname)
          ∧ t = a.container_id ∧ p = a.port) := by
  refine ⟨?_, ?_, ?_, ?_⟩
  · intro a hfind hstat
    simp [routeRequest, hr, hfind, hstat]
  · intro a hfind hstat
    simp [routeRequest, hr, hfind, hstat]
  · intro hfind
    simp [routeRequest, hr, hfind]
  · intro t p hroute
    simp only [routeRequest, hr, if_true] at hroute
    cases hfind : apps.find? (fun x => appSubdomain x.url = some (subdomainOf hostname)) with
    | none => rw [hfind] at hroute; simp at hroute
    | some a =>
      rw [hfind] at hroute
      dsimp only at hroute
      by_cases hstat : a.status = "running"
      · rw [if_pos hstat] at hroute
        refine ⟨a, List.mem_of_find?_eq_some hfind, hstat, ?_, ?_, ?_⟩
        · have := List.find?_some hfind
          exact of_decide_eq_true this
        · cases hroute; rfl
        · cases hroute; rfl
      · rw [if_neg hstat] at hroute
        simp at hroute

/-- Registry for the C3 witness: a single running record for `foo`. -/
def appsC3w : List AppRec :=
  [{ url := "http://foo.example.com", status := "running",
     container_id := "c-foo", port := 4001 }]

theorem C3_first_match_resolution_witness :
    isRoutable (subdomainOf "foo.example.com") = true
    ∧ routeRequest (.ok appsC3w) "foo.example.com" = RouteDecision.proxy "c-foo" 4001 :=
  ⟨by decide,
    (C3_first_match_resolution appsC3w "foo.example.com" (by decide)).1
      { url := "http://foo.example.com", status := "running",
        container_id := "c-foo", port := 4001 }
      (by decide) (by decide)⟩

/-- Hub state for the C8 counterexample: a non-empty replay buffer exists
for build id "b1", no subscriber is registered anywhere. -/
def hubC8 : HubState where
  logSubscribers := fun _ => []
  buildLogs := fun b => if b = "b1" then some ["🚀 Starting template deployment..."] else none
  inbox := fun _ => []
  readyState := fun _ => WS_OPEN

/-- C8 counterexample: a `/ws/logs` upgrade whose query carries the
`appId` parameter with an *empty* value (`?appId=&buildId=b1`) registers
nothing and replays nothing even though `buildId` names a subject with a
non-empty buffer: `url.searchParams.get('appId')` returns `""`, which is
falsy, so the whole `if (appId)` body — registration and replay alike —
is skipped. -/
theorem C8_counterexample :
    hubC8.buildLogs "b1" = some ["🚀 Starting template deployment..."]
    ∧ wsConnect hubC8 7 (some "") (some "b1") = hubC8
    ∧ (wsConnect hubC8 7 (some "") (some "b1")).inbox 7 = [] := by
  refine ⟨by decide, ?_, by decide⟩
  rfl

/-- C8 as amended: for every `/ws/logs` upgrade whose `appId` parameter is
present and *non-empty*, the connection is appended to `appId`'s
subscriber list (no other subject's list changes, no buffer changes), and
if the `buildId` parameter names a subject with a buffer, that buffer is
sent exactly once as `{type:'logs', data}` at registration time — so it
precedes, in the connection's message stream, anything a later live
broadcast appends. -/
theorem C8_subscribe_replay (st : HubState) (c : Nat) (a b : String)
    (ha : a ≠ "") (data : List String) (hb : st.buildLogs b = some data)
    (L : String) (now : Nat) :
    (wsConnect st c (some a) (some b)).logSubscribers a = st.logSubscribers a ++ [c]
    ∧ (∀ s, s ≠ a → (wsConnect st c (some a) (some b)).logSubscribers s = st.logSubscribers s)
    ∧ (wsConnect st c (some a) (some b)).buildLogs = st.buildLogs
    ∧ (wsConnect st c (some a) (some b)).inbox c = st.inbox c ++ [WsMsg.logs data]
    ∧ (st.readyState c = WS_OPEN →
        (publish (wsConnect st c (some a) (some b)) a L now).inbox c =
          (st.inbox c ++ [WsMsg.logs data]) ++
            List.replicate (((wsConnect st c (some a) (some b)).logSubscribers a).count c)
              (WsMsg.logLine L now)) := by
  have hw : wsConnect st c (some a) (some b) =
      { st with
        logSubscribers :=
          Function.update st.logSubscribers a (st.logSubscribers a ++ [c])
        inbox := Function.update st.inbox c (st.inbox c ++ [WsMsg.logs data]) } := by
    simp [wsConnect, ha, hb]
  refine ⟨?_, ?_, ?_, ?_, ?_⟩
  · rw [hw]; simp
  · intro s hs
    rw [hw]; simp [Function.update_noteq hs]
  · rw [hw]
  · rw [hw]; simp
  · intro hopen
    rw [hw]
    simp [publish, broadcastLogs, hopen]

/-- Hub state for the C8 witness: a buffer for "b1", no subscribers yet. -/
def hubC8w : HubState where
  logSubscribers := fun _ => []
  buildLogs := fun b => if b = "b1" then some ["hello"] else none
  inbox := fun _ => []
  readyState := fun _ => WS_OPEN

theorem C8_subscribe_replay_witness :
    ("app-1" : String) ≠ ""
    ∧ hubC8w.buildLogs "b1" = some ["hello"]
    ∧ (wsConnect hubC8w 7 (some "app-1") (some "b1")).logSubscribers "app-1" =
        hubC8w.logSubscribers "app-1" ++ [7]
    ∧ (wsConnect hubC8w 7 (some "app-1") (some "b1")).inbox 7 =
        hubC8w.inbox 7 ++ [WsMsg.logs ["hello"]] :=
  ⟨by decide, by decide,
    (C8_subscribe_replay hubC8w 7 "app-1" "b1" (by decide) ["hello"] (by decide) "x" 0).1,
    (C8_subscribe_replay hubC8w 7 "app-1" "b1" (by decide) ["hello"] (by decide) "x" 0).2.2.2.1⟩

/-- C5 counterexample: when the container-engine info sub-query fails
(while the container listing and the host OS stats both succeed), the
whole metrics request fails with the 500 response instead of producing a
snapshot with zeroed values: `Promise.all` rejects and the handler's
`catch` answers `500 {error: 'Failed to get system metrics'}`. -/
theorem C5_counterexample :
    metricsHandler (.error ()) (.ok []) (.ok defaultSysStats) = .error () := rfl

/-- C5 as amended: only the host-OS stats sub-query degrades gracefully —
its failure is absorbed by `getSystemStats`' own catch and the snapshot
succeeds with zeroed cpu/disk values, the container-derived dimensions
intact; failure of the container-engine info or of the container listing
makes the whole request fail. -/
theorem C5_partial_degradation (info : DockerInfo) (cs : List ContainerInfo) :
    (∃ s, metricsHandler (.ok info) (.ok cs) (.error ()) = .ok s
        ∧ s.cpuLoad = 0 ∧ s.diskUsage = 0 ∧ s.diskHuman = "N/A"
        ∧ s.memUsed = usedMemory cs ∧ s.networkTotalRx = totalRx cs
        ∧ s.networkTotalTx = totalTx cs)
    ∧ (∀ cR osR, metricsHandler (.error ()) cR osR = .error ())
    ∧ (∀ iR osR, metricsHandler iR (.error ()) osR = .error ()) := by
  refine ⟨⟨_, rfl, rfl, rfl, rfl, rfl, rfl, rfl⟩, ?_, ?_⟩
  · intro cR osR
    cases cR <;> rfl
  · intro iR osR
    cases iR <;> rfl

/-- C6: `memory.percent` is `0` when the reported memory total is `0`,
equals the exact rounding of `used/total*100` otherwise, and lies within
`[0, 100]` whenever `used ≤ total`. -/
theorem C6_memory_percent (used total : Nat) :
    (total = 0 → memPercent used total = 0)
    ∧ (0 < total → memPercent used total = round (((used : ℚ) / (total : ℚ)) * 100))
    ∧ (used ≤ total → 0 ≤ memPercent used total ∧ memPercent used total ≤ 100) := by
  refine ⟨?_, ?_, ?_⟩
  · intro h
    simp [memPercent, h]
  · intro h
    simp [memPercent, h]
  · intro hle
    rcases Nat.eq_zero_or_pos total with h0 | hpos
    · simp [memPercent, h0]
    · have htQ : (0 : ℚ) < (total : ℚ) := by exact_mod_cast hpos
      have hq0 : 0 ≤ ((used : ℚ) / (total : ℚ)) * 100 := by positivity
      have hq1 : ((used : ℚ) / (total : ℚ)) * 100 ≤ 100 := by
        have h1 : ((used : ℚ) / (total : ℚ)) ≤ 1 := by
          rw [div_le_one htQ]
          exact_mod_cast hle
        nlinarith
      have hmp : memPercent used total = round (((used : ℚ) / (total : ℚ)) * 100) := by
        simp [memPercent, hpos]
      rw [hmp, round_eq]
      constructor
      · refine Int.le_floor.mpr ?_
        push_cast
        linarith
      · have h2 : (⌊((used : ℚ) / (total : ℚ)) * 100 + 1 / 2⌋ : ℤ) < 101 := by
          refine Int.floor_lt.mpr ?_
          push_cast
          linarith
        omega

theorem C6_memory_percent_witness :
    (0 : Nat) < 2 ∧ (1 : Nat) ≤ 2
    ∧ (0 ≤ memPercent 1 2 ∧ memPercent 1 2 ≤ 100)
    ∧ memPercent 0 0 = 0 :=
  ⟨by decide, by decide, (C6_memory_percent 1 2).2.2 (by decide),
    (C6_memory_percent 0 0).1 rfl⟩

/-- A left fold that adds `f` of each element equals the starting value
plus the sum of the mapped list. -/
theorem foldl_add_map_sum {α : Type} (f : α → Nat) (l : List α) (s : Nat) :
    l.foldl (fun sum c => sum + f c) s = s + (l.map f).sum := by
  induction l generalizing s with
  | nil => simp
  | cons c cs ih => simp [ih, Nat.add_assoc]

/-- C9: the snapshot's memory-used and network rx/tx totals are the sums
of the per-container counters over exactly the containers whose name
matches the `mini-cloud` naming convention, and a container that does not
match the convention contributes to no aggregate. -/
theorem C9_platform_container_totals (cs : List ContainerInfo) :
    usedMemory cs = ((cs.filter isPlatformContainer).map (fun c => c.MemoryUsage.getD 0)).sum
    ∧ totalRx cs = ((cs.filter isPlatformContainer).map (fun c => c.NetworkRx.getD 0)).sum
    ∧ totalTx cs = ((cs.filter isPlatformContainer).map (fun c => c.NetworkTx.getD 0)).sum
    ∧ (∀ c, isPlatformContainer c = false →
        usedMemory (c :: cs) = usedMemory cs
        ∧ totalRx (c :: cs) = totalRx cs
        ∧ totalTx (c :: cs) = totalTx cs) := by
  have hfil : ∀ c, isPlatformContainer c = false →
      (c :: cs).filter isPlatformContainer = cs.filter isPlatformContainer := by
    intro c hc
    simp [List.filter_cons, hc]
  refine ⟨?_, ?_, ?_, ?_⟩
  · simp [usedMemory, platformContainers, foldl_add_map_sum]
  · simp [totalRx, platformContainers, foldl_add_map_sum]
  · simp [totalTx, platformContainers, foldl_add_map_sum]
  · intro c hc
    refine ⟨?_, ?_, ?_⟩ <;>
      simp [usedMemory, totalRx, totalTx, platformContainers, hfil c hc]

/-- Container for the C9 witness: its name does not contain `mini-cloud`,
yet it carries non-zero counters. -/
def contC9 : ContainerInfo where
  Names := ["/customer-web-1"]
  MemoryUsage := some 512
  NetworkRx := some 1024
  NetworkTx := some 2048

theorem C9_platform_container_totals_witness :
    isPlatformContainer contC9 = false
    ∧ usedMemory [contC9] = usedMemory []
    ∧ totalRx [contC9] = totalRx []
    ∧ totalTx [contC9] = totalTx [] :=
  ⟨by decide,
    ((C9_platform_container_totals []).2.2.2 contC9 (by decide)).1,
    ((C9_platform_container_totals []).2.2.2 contC9 (by decide)).2.1,
    ((C9_platform_container_totals []).2.2.2 contC9 (by decide)).2.2⟩

/-- Helper: the concrete shape of the `simulateBuildLogs` timeline. -/
theorem buildPublishEvents_eq (T : Nat) (templateName : String) :
    buildPublishEvents T templateName =
      [(T + 2000, "📦 Cloning " ++ templateName ++ " template..."),
       (T + 4000, "🔧 Installing dependencies..."),
       (T + 6000, "🐳 Building Docker image..."),
       (T + 8000, "🚀 Starting container..."),
       (T + 10000, "✅ Deployment complete!")] := rfl

/-- C4: a build session started at `T` performs exactly 5 transitions —
one per state of `Pending → Cloning → InstallingDeps → BuildingImage →
StartingContainer → Complete` after the initial one, ending in `Complete`
— each publishing its descriptive line in the fixed order at strictly
increasing times; the buffer purge (`buildLogs.delete`) fires at
`T + 3612000` ms, a fixed delay on the order of one hour (the 2-second
tick that notices completion plus the hour-long retention timeout), and
every publish for the subject happens strictly before the purge. -/
theorem C4_build_session_timeline (T : Nat) (templateName : String) :
    (buildPublishEvents T templateName).length = 5
    ∧ sessionStates.length = 5 + 1
    ∧ sessionStates.getLast? = some BuildState.Complete
    ∧ (buildPublishEvents T templateName).map Prod.snd = buildMessages templateName
    ∧ ((buildPublishEvents T templateName).map Prod.fst).Pairwise (· < ·)
    ∧ purgeTime T templateName =
        T + (LOG_INTERVAL_MS * (5 + 1) + LOG_RETENTION_MS)
    ∧ LOG_INTERVAL_MS * (5 + 1) + LOG_RETENTION_MS = 3612000
    ∧ (∀ e ∈ buildPublishEvents T templateName, e.1 < purgeTime T templateName) := by
  refine ⟨?_, by decide, by decide, ?_, ?_, ?_,
    by norm_num [LOG_INTERVAL_MS, LOG_RETENTION_MS], ?_⟩
  · rw [buildPublishEvents_eq]
    rfl
  · rw [buildPublishEvents_eq]
    rfl
  · rw [buildPublishEvents_eq]
    simp
  · show T + 2000 * (5 + 1) + 3600000 = T + (2000 * (5 + 1) + 3600000)
    omega
  · intro e he
    rw [buildPublishEvents_eq] at he
    have hp : purgeTime T templateName = T + 3612000 := by
      show T + 2000 * (5 + 1) + 3600000 = T + 3612000
      omega
    rw [hp]
    simp at he
    rcases he with h | h | h | h | h <;> rw [h] <;> omega

theorem C4_build_session_timeline_witness :
    (2000, "📦 Cloning Static Site template...") ∈ buildPublishEvents 0 "Static Site"
    ∧ (2000 : Nat) < purgeTime 0 "Static Site" :=
  ⟨by decide,
    (C4_build_session_timeline 0 "Static Site").2.2.2.2.2.2.2
      (2000, "📦 Cloning Static Site template...") (by decide)⟩
